import Mathlib

/-!
Verification of the zkp-vote core (src/lib.rs): the vote circuit over an R1CS
constraint system, the SNARK-backed vote orchestrator with its worker pool, and
the nullifier generator.  Machine integers do not occur on the verified paths;
field elements are modelled by an arbitrary field (instantiated at ZMod 101 for
concrete evaluations).  The SNARK backend behind the generic `S: SNARK<F>`
bound and the tokio channel primitives are external dependencies; where their
behaviour decides a property they are modelled from the specification, which is
noted at the definition.
-/

namespace ZkpVote

/-! R1CS layer: variables, linear combinations, constraints and assignments, as
used by `VoteCircuit::generate_constraints`.  A variable is either a constant
allocated by `new_constant_variable` or a private witness allocated by
`new_witness_variable`; `enforce_constraint` records one rank-1 constraint
`A * B = C` over linear combinations. -/

inductive Var where
  | constant : Nat → Var
  | witness : Nat → Var
deriving DecidableEq

inductive SynthesisError where
  | assignmentMissing : SynthesisError
deriving DecidableEq

abbrev LC (F : Type) := List (F × Var)

structure R1Constraint (F : Type) where
  a : LC F
  b : LC F
  c : LC F
deriving DecidableEq

structure ConstraintSystem (F : Type) where
  constants : List F
  witnesses : List F
  constraints : List (R1Constraint F)
deriving DecidableEq

def ConstraintSystem.empty (F : Type) : ConstraintSystem F :=
  { constants := [], witnesses := [], constraints := [] }

def ConstraintSystem.newWitnessVariable {F : Type} (cs : ConstraintSystem F)
    (f : Except SynthesisError F) : Except SynthesisError (ConstraintSystem F × Var) :=
  match f with
  | Except.error e => Except.error e
  | Except.ok v =>
      Except.ok ({ cs with witnesses := cs.witnesses ++ [v] }, Var.witness cs.witnesses.length)

def ConstraintSystem.newConstantVariable {F : Type} (cs : ConstraintSystem F) (v : F) :
    Except SynthesisError (ConstraintSystem F × Var) :=
  Except.ok ({ cs with constants := cs.constants ++ [v] }, Var.constant cs.constants.length)

def ConstraintSystem.enforceConstraint {F : Type} (cs : ConstraintSystem F)
    (a b c : LC F) : Except SynthesisError (ConstraintSystem F) :=
  Except.ok { cs with constraints := cs.constraints ++ [⟨a, b, c⟩] }

def Var.value {F : Type} [Field F] (cs : ConstraintSystem F) : Var → F
  | Var.constant i => cs.constants.getD i 0
  | Var.witness i => cs.witnesses.getD i 0

def evalLC {F : Type} [Field F] (cs : ConstraintSystem F) (lc : LC F) : F :=
  (lc.map (fun t => t.1 * Var.value cs t.2)).sum

def ConstraintSystem.isSatisfied {F : Type} [Field F] [DecidableEq F]
    (cs : ConstraintSystem F) : Bool :=
  cs.constraints.all (fun con => decide (evalLC cs con.a * evalLC cs con.b = evalLC cs con.c))

/-! The vote circuit (struct VoteCircuit and its ConstraintSynthesizer impl,
src/lib.rs lines 16-47): three private witnesses, two constants, and the single
constraint `vote * (vote - 1) = 0`. -/

structure VoteCircuit (F : Type) where
  vote : F
  nullifier : F
  randomness : F
deriving DecidableEq

def VoteCircuit.generate_constraints {F : Type} [Field F] (self : VoteCircuit F)
    (cs : ConstraintSystem F) : Except SynthesisError (ConstraintSystem F) := do
  let (cs, vote_var) ← cs.newWitnessVariable (Except.ok self.vote)
  let (cs, zero) ← cs.newConstantVariable 0
  let (cs, one) ← cs.newConstantVariable 1
  let cs ← cs.enforceConstraint
    [((1 : F), vote_var)]
    [((1 : F), vote_var), ((-1 : F), one)]
    [((1 : F), zero)]
  let (cs, _nullifier_var) ← cs.newWitnessVariable (Except.ok self.nullifier)
  let (cs, _randomness_var) ← cs.newWitnessVariable (Except.ok self.randomness)
  return cs

/-- The constraint system generate_constraints builds from a fresh one. -/
def builtCS {F : Type} [Field F] (v n r : F) : ConstraintSystem F :=
  { constants := [0, 1]
    witnesses := [v, n, r]
    constraints := [⟨[((1 : F), Var.witness 0)],
                     [((1 : F), Var.witness 0), ((-1 : F), Var.constant 1)],
                     [((1 : F), Var.constant 0)]⟩] }

/-- The constraint system a circuit synthesizes on a fresh constraint system
(defaulting to the empty system on a synthesis error). -/
def synthesized {F : Type} [Field F] (c : VoteCircuit F) : ConstraintSystem F :=
  match c.generate_constraints (ConstraintSystem.empty F) with
  | Except.ok cs => cs
  | Except.error _ => ConstraintSystem.empty F

def isOkB {e a : Type} : Except e a → Bool
  | Except.ok _ => true
  | Except.error _ => false

/-! Error type from src/lib.rs (enum VoteSystemError, lines 50-66), one
constructor per variant. -/

inductive VoteSystemError where
  | SnarkError : String → VoteSystemError
  | SynthesisError : SynthesisError → VoteSystemError
  | ProofGenerationError : String → VoteSystemError
  | ProofVerificationError : String → VoteSystemError
  | InvalidVote : String → VoteSystemError
  | InvalidNullifier : String → VoteSystemError
  | InternalError : String → VoteSystemError
deriving DecidableEq

inductive ErrKind where
  | snark
  | synthesis
  | proofGen
  | proofVerif
  | invalidVote
  | invalidNullifier
  | internal
deriving DecidableEq

def VoteSystemError.kind : VoteSystemError → ErrKind
  | VoteSystemError.SnarkError _ => ErrKind.snark
  | VoteSystemError.SynthesisError _ => ErrKind.synthesis
  | VoteSystemError.ProofGenerationError _ => ErrKind.proofGen
  | VoteSystemError.ProofVerificationError _ => ErrKind.proofVerif
  | VoteSystemError.InvalidVote _ => ErrKind.invalidVote
  | VoteSystemError.InvalidNullifier _ => ErrKind.invalidNullifier
  | VoteSystemError.InternalError _ => ErrKind.internal

def errKind {a : Type} : Except VoteSystemError a → Option ErrKind
  | Except.error e => some e.kind
  | Except.ok _ => none

/-! SNARK backend. -/

/-- Modelled from the spec: the backend behind the generic `S: SNARK<F>` bound
(its setup, keygen, prove and verify) is an external dependency absent from
src/.  Following section 4.2 of the spec, the operational outcomes of
parameter generation, key generation and the proving algorithm are environment
inputs gathered here; prove runs the circuit synthesis taken from the source
and fails on constraint violation; verify fails only on a wrong-length
public-input vector or a corrupt proof encoding and otherwise reports
cryptographic validity as a boolean. -/
structure BackendEnv where
  setupOk : Bool
  keygenOk : Bool
  proveOk : Bool
deriving DecidableEq

structure SnarkParams where
  seed : Nat
deriving DecidableEq

structure Snark where
  params : SnarkParams
deriving DecidableEq

structure ProvingKey where
  paramId : Nat
deriving DecidableEq

structure VerifyingKey where
  paramId : Nat
deriving DecidableEq

structure Proof where
  paramId : Nat
  wellFormed : Bool
  valid : Bool
deriving DecidableEq

def Snark.setup (env : BackendEnv) (seed : Nat) : Except String Snark :=
  if env.setupOk then Except.ok ⟨⟨seed⟩⟩ else Except.error "parameter generation failed"

def Snark.keygen (env : BackendEnv) (s : Snark) : Except String (ProvingKey × VerifyingKey) :=
  if env.keygenOk then Except.ok (⟨s.params.seed⟩, ⟨s.params.seed⟩)
  else Except.error "key generation failed"

def Snark.prove {F : Type} [Field F] [DecidableEq F] (env : BackendEnv) (_s : Snark)
    (pk : ProvingKey) (circuit : VoteCircuit F) : Except String Proof :=
  match circuit.generate_constraints (ConstraintSystem.empty F) with
  | Except.error _ => Except.error "constraint synthesis failed"
  | Except.ok cs =>
      if cs.isSatisfied then
        if env.proveOk then Except.ok ⟨pk.paramId, true, true⟩
        else Except.error "proving algorithm failed"
      else Except.error "constraint violation"

def Snark.verify {F : Type} (_s : Snark) (vk : VerifyingKey) (publicInputs : List F)
    (proof : Proof) : Except String Bool :=
  if publicInputs.length ≠ 0 then Except.error "wrong-length public-input vector"
  else if proof.wellFormed = false then Except.error "corrupt proof encoding"
  else Except.ok (proof.valid && decide (proof.paramId = vk.paramId))

/-! Worker pool (struct WorkerPool, src/lib.rs lines 74-123).  The tokio
bounded mpsc channel behind it is modelled by its queue state: send on an open
channel with a free slot enqueues at once; send on an open full channel
suspends until a worker drains enough tasks from the front and then enqueues;
send on a closed channel fails, which WorkerPool::submit_task maps to
VoteSystemError::InternalError. -/

inductive WorkerTask where
  | GenerateProof
  | VerifyProof
deriving DecidableEq

inductive SubmitWait where
  | immediate
  | waitedForCapacity
deriving DecidableEq

structure WorkerPool where
  capacity : Nat
  queue : List WorkerTask
  closed : Bool
  workers : Nat
deriving DecidableEq

def WorkerPool.new (size : Nat) : WorkerPool :=
  { capacity := 100, queue := [], closed := false, workers := size }

def WorkerPool.submitTask (p : WorkerPool) (t : WorkerTask) :
    Except VoteSystemError (WorkerPool × SubmitWait) :=
  if p.closed then
    Except.error (VoteSystemError.InternalError "Failed to submit task: channel closed")
  else if p.queue.length < p.capacity then
    Except.ok ({ p with queue := p.queue ++ [t] }, SubmitWait.immediate)
  else
    Except.ok ({ p with queue := p.queue.drop (p.queue.length + 1 - p.capacity) ++ [t] },
      SubmitWait.waitedForCapacity)

def submittedQueue (p : WorkerPool) (t : WorkerTask) : List WorkerTask :=
  match p.submitTask t with
  | Except.ok (q, _) => q.queue
  | Except.error _ => p.queue

def submitWaited (p : WorkerPool) (t : WorkerTask) : Bool :=
  match p.submitTask t with
  | Except.ok (_, SubmitWait.waitedForCapacity) => true
  | _ => false

/-! Vote orchestrator (struct VoteSystem, src/lib.rs lines 68-239). -/

structure VoteSystem where
  snark : Snark
  workerPool : WorkerPool
deriving DecidableEq

def VoteSystem.setup (env : BackendEnv) (seed : Nat) :
    Except VoteSystemError (VoteSystem × ProvingKey × VerifyingKey) :=
  match Snark.setup env seed with
  | Except.error e => Except.error (VoteSystemError.SnarkError e)
  | Except.ok snark =>
      match Snark.keygen env snark with
      | Except.error e => Except.error (VoteSystemError.SnarkError e)
      | Except.ok (pk, vk) =>
          Except.ok ({ snark := snark, workerPool := WorkerPool.new 4 }, pk, vk)

def VoteSystem.vote {F : Type} [Field F] [DecidableEq F] (sys : VoteSystem)
    (env : BackendEnv) (pk : ProvingKey) (circuit : VoteCircuit F) :
    Except VoteSystemError Proof :=
  match Snark.prove env sys.snark pk circuit with
  | Except.error e => Except.error (VoteSystemError.ProofGenerationError e)
  | Except.ok p => Except.ok p

/-- The proof a successful vote call yields (dummy proof on the error path). -/
def voteOutput {F : Type} [Field F] [DecidableEq F] (sys : VoteSystem) (env : BackendEnv)
    (pk : ProvingKey) (circuit : VoteCircuit F) : Proof :=
  match sys.vote env pk circuit with
  | Except.ok p => p
  | Except.error _ => ⟨0, false, false⟩

/-- Environment of one asynchronous call: whether the join of the off-loaded
blocking task succeeds, and the backend outcomes seen inside its closure. -/
structure AsyncEnv where
  joinOk : Bool
  backend : BackendEnv
deriving DecidableEq

/-- vote_async (src/lib.rs lines 164-192): submit a GenerateProof tag to the
pool, then run the closure on the blocking pool — which re-runs S::setup with
the caller's randomness source and proves on the fresh instance — and join.
The second component counts the backend setup invocations performed inside the
off-loaded computation. -/
def VoteSystem.voteAsyncRun {F : Type} [Field F] [DecidableEq F] (sys : VoteSystem)
    (aenv : AsyncEnv) (pk : ProvingKey) (circuit : VoteCircuit F) (seed : Nat) :
    Except VoteSystemError Proof × Nat :=
  match sys.workerPool.submitTask WorkerTask.GenerateProof with
  | Except.error e => (Except.error e, 0)
  | Except.ok _ =>
      if aenv.joinOk then
        match Snark.setup aenv.backend seed with
        | Except.error e => (Except.error (VoteSystemError.SnarkError e), 1)
        | Except.ok freshSnark =>
            match Snark.prove aenv.backend freshSnark pk circuit with
            | Except.error e => (Except.error (VoteSystemError.ProofGenerationError e), 1)
            | Except.ok p => (Except.ok p, 1)
      else (Except.error (VoteSystemError.InternalError "failed to join the off-loaded task"), 0)

def VoteSystem.voteAsync {F : Type} [Field F] [DecidableEq F] (sys : VoteSystem)
    (aenv : AsyncEnv) (pk : ProvingKey) (circuit : VoteCircuit F) (seed : Nat) :
    Except VoteSystemError Proof :=
  (sys.voteAsyncRun aenv pk circuit seed).1

def VoteSystem.verify {F : Type} (sys : VoteSystem) (vk : VerifyingKey)
    (publicInputs : List F) (proof : Proof) : Except VoteSystemError Bool :=
  match Snark.verify sys.snark vk publicInputs proof with
  | Except.error e => Except.error (VoteSystemError.ProofVerificationError e)
  | Except.ok b => Except.ok b

/-- verify_async (src/lib.rs lines 210-238): same dispatch pattern as
vote_async, the off-loaded closure re-running S::setup from a thread-local
randomness source; the second component counts those setup invocations. -/
def VoteSystem.verifyAsyncRun {F : Type} (sys : VoteSystem) (aenv : AsyncEnv)
    (vk : VerifyingKey) (publicInputs : List F) (proof : Proof) (seed : Nat) :
    Except VoteSystemError Bool × Nat :=
  match sys.workerPool.submitTask WorkerTask.VerifyProof with
  | Except.error e => (Except.error e, 0)
  | Except.ok _ =>
      if aenv.joinOk then
        match Snark.setup aenv.backend seed with
        | Except.error e => (Except.error (VoteSystemError.SnarkError e), 1)
        | Except.ok freshSnark =>
            match Snark.verify freshSnark vk publicInputs proof with
            | Except.error e => (Except.error (VoteSystemError.ProofVerificationError e), 1)
            | Except.ok b => (Except.ok b, 1)
      else (Except.error (VoteSystemError.InternalError "failed to join the off-loaded task"), 0)

/-! Nullifier generation (generate_nullifier, src/lib.rs lines 242-259).  The
blake3 compression itself is an external primitive, passed as a function
producing the digest bytes; the incremental hasher state is the list of bytes
fed so far, and finalize applies the hash to it. -/

def u64ToLeBytes (x : Nat) : List Nat :=
  (List.range 8).map (fun i => x / 256 ^ i % 256)

abbrev HasherState : Type := List Nat

def HasherState.init : HasherState := []

def HasherState.update (h : HasherState) (bytes : List Nat) : HasherState := h ++ bytes

def HasherState.finalize (hash : List Nat → List Nat) (h : HasherState) : List Nat := hash h

def leBytesToNat : List Nat → Nat
  | [] => 0
  | b :: bs => b + 256 * leBytesToNat bs

def from_le_bytes_mod_order (p : Nat) (bytes : List Nat) : ZMod p :=
  (leBytesToNat bytes : ZMod p)

def generate_nullifier (p : Nat) (hash : List Nat → List Nat) (userIdBytes : List Nat)
    (rngNextU64 : Nat) (unixSecs : Nat) : ZMod p :=
  let hasher := HasherState.init
  let hasher := hasher.update userIdBytes
  let hasher := hasher.update (u64ToLeBytes rngNextU64)
  let hasher := hasher.update (u64ToLeBytes unixSecs)
  let digest := hasher.finalize hash
  let buffer := digest.take 32
  from_le_bytes_mod_order p buffer

/-- Stated from the spec wording for the refinement comparison in C8: hash the
concatenation of the identifier bytes, the 8 bytes of fresh randomness and the
timestamp bytes, then reduce the digest modulo the field order. -/
def spec_generate_nullifier (p : Nat) (hash : List Nat → List Nat) (userIdBytes : List Nat)
    (rngNextU64 : Nat) (unixSecs : Nat) : ZMod p :=
  from_le_bytes_mod_order p
    (hash (userIdBytes ++ u64ToLeBytes rngNextU64 ++ u64ToLeBytes unixSecs))

/-! Concrete instances used by witnesses and counterexamples. -/

def envAll : BackendEnv := ⟨true, true, true⟩

def sysW : VoteSystem := ⟨⟨⟨0⟩⟩, WorkerPool.new 4⟩

def pkW : ProvingKey := ⟨0⟩

def vkW : VerifyingKey := ⟨0⟩

def aenvBadSetup : AsyncEnv := ⟨true, ⟨false, true, true⟩⟩

def aenvNoJoin : AsyncEnv := ⟨false, envAll⟩

def closedPool : WorkerPool := { capacity := 100, queue := [], closed := true, workers := 4 }

lemma generate_constraints_empty {F : Type} [Field F] (v n r : F) :
    (VoteCircuit.mk v n r).generate_constraints (ConstraintSystem.empty F)
      = Except.ok (builtCS v n r) := rfl

lemma builtCS_satisfied_iff {F : Type} [Field F] [DecidableEq F] (v n r : F) :
    ((builtCS v n r).isSatisfied = true) ↔ (v = 0 ∨ v = 1) := by
  have h : (builtCS v n r).isSatisfied
      = (decide ((1 * v + 0) * (1 * v + (-1 * 1 + 0)) = 1 * 0 + 0) && true) := rfl
  rw [h]
  simp only [Bool.and_true, decide_eq_true_eq, one_mul, mul_one, add_zero, zero_mul, mul_zero]
  rw [← sub_eq_add_neg, mul_eq_zero, sub_eq_zero]

lemma builtCS_not_satisfied {F : Type} [Field F] [DecidableEq F] {v : F} (n r : F)
    (h0 : v ≠ 0) (h1 : v ≠ 1) : (builtCS v n r).isSatisfied = false := by
  cases hb : (builtCS v n r).isSatisfied
  · rfl
  · rcases (builtCS_satisfied_iff v n r).mp hb with h | h
    · exact absurd h h0
    · exact absurd h h1

/-- Claim C1: for every witness, generate_constraints on a fresh constraint
system succeeds, and the resulting constraint system is satisfied iff the vote
is 0 or 1, whatever the nullifier and randomness are. -/
theorem c1_satisfied_iff_vote_binary (F : Type) [Field F] [DecidableEq F] (v n r : F) :
    isOkB ((VoteCircuit.mk v n r).generate_constraints (ConstraintSystem.empty F)) = true
      ∧ ((synthesized (VoteCircuit.mk v n r)).isSatisfied = true ↔ (v = 0 ∨ v = 1)) := by
  refine ⟨by rw [generate_constraints_empty]; rfl, ?_⟩
  have h : synthesized (VoteCircuit.mk v n r) = builtCS v n r := by
    unfold synthesized
    rw [generate_constraints_empty]
  rw [h]
  exact builtCS_satisfied_iff v n r

/-- Claim C10: synthesis is total on a fresh constraint system — every witness
assignment closure returns ok and generate_constraints returns ok for every
witness; an out-of-range vote surfaces only as an unsatisfied constraint
system, never as a synthesis error. -/
theorem c10_synthesis_total (F : Type) [Field F] [DecidableEq F] (v n r : F) :
    isOkB ((VoteCircuit.mk v n r).generate_constraints (ConstraintSystem.empty F)) = true
      ∧ (v ≠ 0 → v ≠ 1 → (synthesized (VoteCircuit.mk v n r)).isSatisfied = false) := by
  refine ⟨by rw [generate_constraints_empty]; rfl, ?_⟩
  intro h0 h1
  have h : synthesized (VoteCircuit.mk v n r) = builtCS v n r := by
    unfold synthesized
    rw [generate_constraints_empty]
  rw [h]
  exact builtCS_not_satisfied n r h0 h1

instance : Fact (Nat.Prime 101) := ⟨by norm_num⟩

theorem c10_synthesis_total_witness :
    (synthesized (VoteCircuit.mk (2 : ZMod 101) 12345 67890)).isSatisfied = false :=
  (c10_synthesis_total (ZMod 101) 2 12345 67890).2 (by decide) (by decide)

lemma setup_eq_ok {env : BackendEnv} {seed : Nat} {sys : VoteSystem} {pk : ProvingKey}
    {vk : VerifyingKey}
    (h : VoteSystem.setup env seed = Except.ok (sys, pk, vk)) :
    sys = { snark := ⟨⟨seed⟩⟩, workerPool := WorkerPool.new 4 }
      ∧ pk = (⟨seed⟩ : ProvingKey) ∧ vk = (⟨seed⟩ : VerifyingKey) := by
  cases hs : env.setupOk
  · simp [VoteSystem.setup, Snark.setup, hs] at h
  · cases hk : env.keygenOk
    · simp [VoteSystem.setup, Snark.setup, Snark.keygen, hs, hk] at h
    · simp only [VoteSystem.setup, Snark.setup, Snark.keygen, hs, hk, if_true,
        Except.ok.injEq, Prod.mk.injEq] at h
      exact ⟨h.1.symm, h.2.1.symm, h.2.2.symm⟩

/-- Claim C9: setup either returns the orchestrator together with both keys, or
fails with the key-setup error kind (named SnarkError in the source) on a
parameter or key generation failure, with no partially built instance. -/
theorem c9_setup_all_or_nothing (env : BackendEnv) (seed : Nat) :
    ((env.setupOk = false ∨ env.keygenOk = false) →
        errKind (VoteSystem.setup env seed) = some ErrKind.snark)
      ∧ (env.setupOk = true → env.keygenOk = true →
        VoteSystem.setup env seed
          = Except.ok ({ snark := ⟨⟨seed⟩⟩, workerPool := WorkerPool.new 4 },
              (⟨seed⟩ : ProvingKey), (⟨seed⟩ : VerifyingKey))) := by
  constructor
  · rintro (h | h)
    · simp [VoteSystem.setup, Snark.setup, h, errKind, VoteSystemError.kind]
    · cases hs : env.setupOk <;>
        simp [VoteSystem.setup, Snark.setup, Snark.keygen, h, hs, errKind,
          VoteSystemError.kind]
  · intro hs hk
    simp [VoteSystem.setup, Snark.setup, Snark.keygen, hs, hk]

theorem c9_setup_witness :
    errKind (VoteSystem.setup ⟨false, true, true⟩ 3) = some ErrKind.snark :=
  (c9_setup_all_or_nothing ⟨false, true, true⟩ 3).1 (Or.inl rfl)

/-- Claim C2: completeness round trip — with keys produced by one setup call
and a witness whose vote is 0 or 1, vote succeeds and verify accepts the
resulting proof against the matching verifying key and empty public inputs. -/
theorem c2_completeness_round_trip (F : Type) [Field F] [DecidableEq F]
    (env : BackendEnv) (seed : Nat) (v n r : F)
    (sys : VoteSystem) (pk : ProvingKey) (vk : VerifyingKey)
    (hv : v = 0 ∨ v = 1) (hp : env.proveOk = true)
    (hsetup : VoteSystem.setup env seed = Except.ok (sys, pk, vk)) :
    sys.vote env pk (VoteCircuit.mk v n r)
        = Except.ok (voteOutput sys env pk (VoteCircuit.mk v n r))
      ∧ sys.verify vk ([] : List F) (voteOutput sys env pk (VoteCircuit.mk v n r))
        = Except.ok true := by
  obtain ⟨hsys, hpk, hvk⟩ := setup_eq_ok hsetup
  subst hsys
  subst hpk
  subst hvk
  have hsat : (builtCS v n r).isSatisfied = true := (builtCS_satisfied_iff v n r).mpr hv
  have hprove : Snark.prove env (⟨⟨seed⟩⟩ : Snark) (⟨seed⟩ : ProvingKey) (VoteCircuit.mk v n r)
      = Except.ok ⟨seed, true, true⟩ := by
    unfold Snark.prove
    rw [generate_constraints_empty]
    simp [hsat, hp]
  constructor
  · simp [VoteSystem.vote, hprove, voteOutput]
  · simp [VoteSystem.vote, voteOutput, hprove, VoteSystem.verify, Snark.verify]

theorem c2_completeness_witness :
    sysW.vote envAll pkW (VoteCircuit.mk (1 : ZMod 101) 12345 67890)
        = Except.ok (voteOutput sysW envAll pkW (VoteCircuit.mk (1 : ZMod 101) 12345 67890))
      ∧ sysW.verify vkW ([] : List (ZMod 101))
          (voteOutput sysW envAll pkW (VoteCircuit.mk (1 : ZMod 101) 12345 67890))
        = Except.ok true :=
  c2_completeness_round_trip (ZMod 101) envAll 0 1 12345 67890 sysW pkW vkW
    (Or.inr rfl) rfl rfl

/-- Claim C4: a witness whose vote is neither 0 nor 1 makes vote fail with the
ProofGenerationError kind and makes vote_async yield no proof; moreover every
proving-backend failure surfaces from vote as ProofGenerationError. -/
theorem c4_invalid_vote_rejected (F : Type) [Field F] [DecidableEq F]
    (env : BackendEnv) (aenv : AsyncEnv) (sys : VoteSystem) (pk : ProvingKey)
    (v n r : F) (seed : Nat) (c : VoteCircuit F)
    (h0 : v ≠ 0) (h1 : v ≠ 1) :
    errKind (sys.vote env pk (VoteCircuit.mk v n r)) = some ErrKind.proofGen
      ∧ isOkB (sys.voteAsync aenv pk (VoteCircuit.mk v n r) seed) = false
      ∧ (errKind (sys.vote env pk c) = none
          ∨ errKind (sys.vote env pk c) = some ErrKind.proofGen) := by
  have hns : (builtCS v n r).isSatisfied = false := builtCS_not_satisfied n r h0 h1
  have hprove : ∀ (e : BackendEnv) (s : Snark),
      Snark.prove e s pk (VoteCircuit.mk v n r) = Except.error "constraint violation" := by
    intro e s
    unfold Snark.prove
    rw [generate_constraints_empty]
    simp [hns]
  refine ⟨?_, ?_, ?_⟩
  · simp [VoteSystem.vote, hprove, errKind, VoteSystemError.kind]
  · unfold VoteSystem.voteAsync VoteSystem.voteAsyncRun
    cases hsub : sys.workerPool.submitTask WorkerTask.GenerateProof with
    | error e => simp [isOkB]
    | ok x =>
        cases hj : aenv.joinOk
        · simp [isOkB]
        · cases hst : Snark.setup aenv.backend seed with
          | error e => simp [hst, isOkB]
          | ok fs => simp [hst, hprove, isOkB]
  · cases hpr : Snark.prove env sys.snark pk c with
    | error e => exact Or.inr (by simp [VoteSystem.vote, hpr, errKind, VoteSystemError.kind])
    | ok p => exact Or.inl (by simp [VoteSystem.vote, hpr, errKind])

theorem c4_invalid_vote_witness :
    errKind (sysW.vote envAll pkW (VoteCircuit.mk (2 : ZMod 101) 12345 67890))
        = some ErrKind.proofGen
      ∧ isOkB (sysW.voteAsync ⟨true, envAll⟩ pkW (VoteCircuit.mk (2 : ZMod 101) 12345 67890) 0)
        = false
      ∧ (errKind (sysW.vote envAll pkW (VoteCircuit.mk (1 : ZMod 101) 1 1)) = none
          ∨ errKind (sysW.vote envAll pkW (VoteCircuit.mk (1 : ZMod 101) 1 1))
            = some ErrKind.proofGen) :=
  c4_invalid_vote_rejected (ZMod 101) envAll ⟨true, envAll⟩ sysW pkW 2 12345 67890 0
    (VoteCircuit.mk 1 1 1) (by decide) (by decide)

/-- Claim C5: verify fails exactly on malformed inputs — a wrong-length
public-input vector or a corrupt proof encoding — and then with the
ProofVerificationError kind; a well-formed cryptographically invalid proof
(invalid body, or keys that do not match) gets ok false, never an error. -/
theorem c5_verify_error_only_malformed (F : Type) (sys : VoteSystem) (vk : VerifyingKey)
    (inputs : List F) (pf : Proof) :
    (isOkB (sys.verify vk inputs pf) = false ↔ (inputs.length ≠ 0 ∨ pf.wellFormed = false))
      ∧ (errKind (sys.verify vk inputs pf) = none
          ∨ errKind (sys.verify vk inputs pf) = some ErrKind.proofVerif)
      ∧ (inputs.length = 0 → pf.wellFormed = true → pf.valid = false →
          sys.verify vk inputs pf = Except.ok false)
      ∧ (inputs.length = 0 → pf.wellFormed = true → pf.paramId ≠ vk.paramId →
          sys.verify vk inputs pf = Except.ok false) := by
  by_cases hlen : inputs.length = 0
  · cases hwf : pf.wellFormed
    · simp [VoteSystem.verify, Snark.verify, hlen, hwf, isOkB, errKind, VoteSystemError.kind]
    · refine ⟨?_, ?_, ?_, ?_⟩
      · simp [VoteSystem.verify, Snark.verify, hlen, hwf, isOkB]
      · exact Or.inl (by simp [VoteSystem.verify, Snark.verify, hlen, hwf, errKind])
      · intro _ _ hval
        simp [VoteSystem.verify, Snark.verify, hlen, hwf, hval]
      · intro _ _ hid
        simp [VoteSystem.verify, Snark.verify, hlen, hwf, hid]
  · simp [VoteSystem.verify, Snark.verify, hlen, isOkB, errKind, VoteSystemError.kind]

theorem c5_verify_witness :
    sysW.verify vkW ([] : List (ZMod 101)) ⟨0, true, false⟩ = Except.ok false :=
  (c5_verify_error_only_malformed (ZMod 101) sysW vkW [] ⟨0, true, false⟩).2.2.1 rfl rfl rfl

/-- Claim C6 counterexample: with the off-loaded context joining fine but the
key re-setup it performs failing, vote_async returns the SnarkError kind — an
error vote never produces — refuting the claim that vote_async yields exactly
the error kinds of vote plus InternalError. -/
theorem c6_counterexample :
    sysW.voteAsync aenvBadSetup pkW (VoteCircuit.mk (1 : ZMod 101) 12345 67890) 7
      = Except.error (VoteSystemError.SnarkError "parameter generation failed") := rfl

/-- Claim C6 amended: from a system produced by setup, vote_async returns the
InternalError kind iff the off-loaded context could not be joined, the
SnarkError kind iff it joined but the hot-path key re-setup failed, and
otherwise fails only with the ProofGenerationError kind. -/
theorem c6_amended_error_kinds (F : Type) [Field F] [DecidableEq F]
    (env : BackendEnv) (seed seed2 : Nat) (aenv : AsyncEnv)
    (sys : VoteSystem) (pk : ProvingKey) (vk : VerifyingKey)
    (hsetup : VoteSystem.setup env seed = Except.ok (sys, pk, vk))
    (c : VoteCircuit F) :
    (errKind (sys.voteAsync aenv pk c seed2) = some ErrKind.internal ↔ aenv.joinOk = false)
      ∧ (errKind (sys.voteAsync aenv pk c seed2) = some ErrKind.snark
          ↔ (aenv.joinOk = true ∧ aenv.backend.setupOk = false))
      ∧ (errKind (sys.voteAsync aenv pk c seed2) = none
          ∨ errKind (sys.voteAsync aenv pk c seed2) = some ErrKind.internal
          ∨ errKind (sys.voteAsync aenv pk c seed2) = some ErrKind.snark
          ∨ errKind (sys.voteAsync aenv pk c seed2) = some ErrKind.proofGen) := by
  obtain ⟨hsys, hpk, hvk⟩ := setup_eq_ok hsetup
  subst hsys
  have hsub : (WorkerPool.new 4).submitTask WorkerTask.GenerateProof
      = Except.ok ({ WorkerPool.new 4 with queue := [WorkerTask.GenerateProof] },
          SubmitWait.immediate) := rfl
  unfold VoteSystem.voteAsync VoteSystem.voteAsyncRun
  simp only [hsub]
  cases hj : aenv.joinOk
  · simp [errKind, VoteSystemError.kind]
  · cases hst : aenv.backend.setupOk
    · simp [Snark.setup, hst, errKind, VoteSystemError.kind]
    · cases hpr : Snark.prove aenv.backend (⟨⟨seed2⟩⟩ : Snark) pk c with
      | error e =>
          simp [Snark.setup, hst, hpr, errKind, VoteSystemError.kind]
      | ok p =>
          simp [Snark.setup, hst, hpr, errKind]

theorem c6_amended_witness :
    (errKind (sysW.voteAsync aenvNoJoin pkW (VoteCircuit.mk (1 : ZMod 101) 1 1) 7)
        = some ErrKind.internal ↔ aenvNoJoin.joinOk = false)
      ∧ (errKind (sysW.voteAsync aenvNoJoin pkW (VoteCircuit.mk (1 : ZMod 101) 1 1) 7)
          = some ErrKind.snark
          ↔ (aenvNoJoin.joinOk = true ∧ aenvNoJoin.backend.setupOk = false))
      ∧ (errKind (sysW.voteAsync aenvNoJoin pkW (VoteCircuit.mk (1 : ZMod 101) 1 1) 7) = none
          ∨ errKind (sysW.voteAsync aenvNoJoin pkW (VoteCircuit.mk (1 : ZMod 101) 1 1) 7)
            = some ErrKind.internal
          ∨ errKind (sysW.voteAsync aenvNoJoin pkW (VoteCircuit.mk (1 : ZMod 101) 1 1) 7)
            = some ErrKind.snark
          ∨ errKind (sysW.voteAsync aenvNoJoin pkW (VoteCircuit.mk (1 : ZMod 101) 1 1) 7)
            = some ErrKind.proofGen) :=
  c6_amended_error_kinds (ZMod 101) envAll 0 7 aenvNoJoin sysW pkW vkW rfl
    (VoteCircuit.mk 1 1 1)

/-- Claim C7 counterexample: submitting to a closed queue fails with the
InternalError kind — the source error enum has no DispatchError variant and
reuses the kind the spec reserves for join failures. -/
theorem c7_counterexample :
    closedPool.submitTask WorkerTask.GenerateProof
        = Except.error (VoteSystemError.InternalError "Failed to submit task: channel closed")
      ∧ errKind (closedPool.submitTask WorkerTask.GenerateProof) = some ErrKind.internal :=
  ⟨rfl, rfl⟩

/-- Claim C7 amended: submit_task fails iff the queue is closed, and then with
the InternalError kind; on an open queue the task is appended, a full queue
making the submitter wait for capacity first, the pending queue stays within
capacity, and no accepted task is dropped. -/
theorem c7_amended_submit_backpressure (p : WorkerPool) (t : WorkerTask) :
    (isOkB (p.submitTask t) = false ↔ p.closed = true)
      ∧ (p.closed = true → errKind (p.submitTask t) = some ErrKind.internal)
      ∧ (p.closed = false → (submittedQueue p t).getLast? = some t)
      ∧ (p.closed = false → (submitWaited p t = true ↔ p.capacity ≤ p.queue.length))
      ∧ (p.closed = false → 0 < p.capacity → p.queue.length ≤ p.capacity →
          (submittedQueue p t).length ≤ p.capacity) := by
  cases hc : p.closed
  · by_cases hfull : p.queue.length < p.capacity
    · refine ⟨?_, ?_, ?_, ?_, ?_⟩
      · simp [WorkerPool.submitTask, hc, hfull, isOkB]
      · intro h
        exact absurd h (by simp [hc])
      · intro _
        simp [submittedQueue, WorkerPool.submitTask, hc, hfull]
      · intro _
        simp [submitWaited, WorkerPool.submitTask, hc, hfull]
      · intro _ _ _
        simp [submittedQueue, WorkerPool.submitTask, hc, hfull]
        omega
    · refine ⟨?_, ?_, ?_, ?_, ?_⟩
      · simp [WorkerPool.submitTask, hc, hfull, isOkB]
      · intro h
        exact absurd h (by simp [hc])
      · intro _
        simp [submittedQueue, WorkerPool.submitTask, hc, hfull]
      · intro _
        simp [submitWaited, WorkerPool.submitTask, hc, hfull]
        omega
      · intro _ hcap hle
        simp only [submittedQueue, WorkerPool.submitTask, hc, hfull]
        simp only [Bool.false_eq_true, if_false, List.length_append, List.length_drop,
          List.length_cons, List.length_nil]
        omega
  · simp [WorkerPool.submitTask, hc, isOkB, errKind, VoteSystemError.kind]

theorem c7_amended_witness :
    ((submittedQueue (WorkerPool.new 4) WorkerTask.GenerateProof).getLast?
        = some WorkerTask.GenerateProof)
      ∧ (submittedQueue (WorkerPool.new 4) WorkerTask.GenerateProof).length
        ≤ (WorkerPool.new 4).capacity :=
  ⟨(c7_amended_submit_backpressure (WorkerPool.new 4) WorkerTask.GenerateProof).2.2.1 rfl,
   (c7_amended_submit_backpressure (WorkerPool.new 4) WorkerTask.GenerateProof).2.2.2.2
     rfl (by decide) (by decide)⟩

/-- Claim C8: generate_nullifier feeds the identifier bytes, the 8 little-endian
bytes of one fresh 64-bit random value and the 8 little-endian bytes of the
unix seconds into the incremental hasher, and equals hashing that concatenation
in one piece and reducing the 32-byte digest modulo the field order. -/
theorem c8_nullifier_structure (p : Nat) (hash : List Nat → List Nat)
    (userIdBytes : List Nat) (rngNextU64 unixSecs : Nat)
    (hlen : (hash (userIdBytes ++ u64ToLeBytes rngNextU64 ++ u64ToLeBytes unixSecs)).length
      = 32) :
    generate_nullifier p hash userIdBytes rngNextU64 unixSecs
        = spec_generate_nullifier p hash userIdBytes rngNextU64 unixSecs
      ∧ (u64ToLeBytes rngNextU64).length = 8 := by
  constructor
  · have h1 : generate_nullifier p hash userIdBytes rngNextU64 unixSecs
        = from_le_bytes_mod_order p
            (List.take 32
              (hash (userIdBytes ++ u64ToLeBytes rngNextU64 ++ u64ToLeBytes unixSecs))) := by
      simp [generate_nullifier, HasherState.init, HasherState.update, HasherState.finalize]
    rw [h1]
    unfold spec_generate_nullifier
    rw [List.take_of_length_le (le_of_eq hlen)]
  · simp [u64ToLeBytes]

theorem c8_nullifier_witness :
    generate_nullifier 101 (fun _ => List.replicate 32 1) [117, 115, 101, 114, 49] 5 9
      = spec_generate_nullifier 101 (fun _ => List.replicate 32 1) [117, 115, 101, 114, 49] 5 9 :=
  (c8_nullifier_structure 101 (fun _ => List.replicate 32 1) [117, 115, 101, 114, 49] 5 9
    (by simp)).1

/-- Claim C3 evidence: on a successful run the off-loaded closures of
vote_async and verify_async each perform one fresh backend key setup from the
call-side randomness — the setup count of the run is 1, where the claim and
the spec require 0 re-setups on the hot path. -/
theorem c3_hot_path_runs_setup :
    (sysW.voteAsyncRun ⟨true, envAll⟩ pkW (VoteCircuit.mk (1 : ZMod 101) 12345 67890) 99).2 = 1
      ∧ (sysW.verifyAsyncRun (F := ZMod 101) ⟨true, envAll⟩ vkW [] ⟨0, true, true⟩ 99).2 = 1 :=
  ⟨rfl, rfl⟩

end ZkpVote
